import Mathlib

/-!
# Verification of the megalodon Pixelfed adapter

Shallow embedding of `src/megalodon/src/pixelfed/api_client.ts` and the
backend entity schemas it converts.  The API Client's verb methods are
modelled as functions from the transport outcome of the underlying axios
call to the client-level result, together with the request headers the
method builds; the entity converters are modelled as pure Lean functions
over record types mirroring the backend and canonical schemas.
-/

set_option autoImplicit false

namespace MegalodonPixelfed

/-! ## Headers and the deep merge of the Authorization default

Request headers are a JS object of string keys and string values; we model
them as an association list without duplicate keys.  `setHeader` models
what `objectAssignDeep({}, options, { headers: { Authorization: ... } })`
does at the `headers` leaf: the later source's value overwrites the value
at an existing key (keeping its position) or is appended as a new entry.
-/

abbrev Headers := List (String × String)

def setHeader : Headers → String → String → Headers
  | [], k, v => [(k, v)]
  | p :: t, k, v => if p.1 = k then (k, v) :: t else p :: setHeader t k v

def lookupHeader : Headers → String → Option String
  | [], _ => none
  | p :: t, k => if p.1 = k then some p.2 else lookupHeader t k

/-! ## Transport outcomes and client results

An axios call either succeeds with a response or rejects with an error;
`axios.isCancel(err)` distinguishes the abort-triggered `CanceledError`
from every other failure.  The verb methods of the client either translate
the cancel-flavoured rejection into `RequestCanceledError` (the verbs with
a `.catch` block) or let it propagate untouched (`post`, `postForm`).
-/

structure AxiosResponse where
  data : String
  status : Nat
  statusText : String
  headers : Headers
deriving DecidableEq, Repr

inductive AxiosOutcome where
  /-- The request resolved; the `.then` block builds the response envelope. -/
  | success (resp : AxiosResponse)
  /-- The request rejected with an abort-triggered error: `axios.isCancel` is true. -/
  | canceled (msg : String)
  /-- The request rejected with any other transport failure. -/
  | failure (msg : String)
deriving DecidableEq, Repr

inductive ClientResult where
  /-- The uniform response envelope `{ data, status, statusText, headers }`. -/
  | ok (resp : AxiosResponse)
  /-- The distinguished `RequestCanceledError` thrown by the `.catch` translation. -/
  | requestCanceledError (msg : String)
  /-- The transport's generic abort failure, propagated untranslated. -/
  | axiosCanceled (msg : String)
  /-- Any other transport failure, propagated unchanged. -/
  | axiosError (msg : String)
deriving DecidableEq, Repr

/-- The `.catch`/`.then` chain shared by `get`, `put`, `putForm`, `patch`,
`patchForm` and `del`: an abort-triggered rejection is rethrown as
`RequestCanceledError`, anything else propagates. -/
def handleWithCancel : AxiosOutcome → ClientResult
  | .success r => .ok { data := r.data, status := r.status, statusText := r.statusText, headers := r.headers }
  | .canceled msg => .requestCanceledError msg
  | .failure msg => .axiosError msg

/-- The bare `.then` chain of `post` and `postForm`: no `.catch`, so an
abort-triggered rejection propagates as the transport's generic failure. -/
def handleNoCancel : AxiosOutcome → ClientResult
  | .success r => .ok { data := r.data, status := r.status, statusText := r.statusText, headers := r.headers }
  | .canceled msg => .axiosCanceled msg
  | .failure msg => .axiosError msg

/-! ## The Client -/

structure Client where
  accessToken : Option String
  baseUrl : String
  /-- The per-instance `AbortController`, identified by a number. -/
  abortController : Nat
deriving DecidableEq, Repr

/-- The headers each verb method puts into the axios options: the
caller-supplied headers, with `Authorization: Bearer <token>` deep-merged
on top when the access token is truthy.  `if (this.accessToken)` is JS
truthiness on `string | null`: `null` and the empty string are falsy. -/
def Client.requestHeaders (c : Client) (headers : Headers) : Headers :=
  match c.accessToken with
  | some token =>
    if token = "" then headers
    else setHeader headers "Authorization" ("Bearer " ++ token)
  | none => headers

def Client.get (c : Client) (headers : Headers) (o : AxiosOutcome) : Headers × ClientResult :=
  (c.requestHeaders headers, handleWithCancel o)

def Client.put (c : Client) (headers : Headers) (o : AxiosOutcome) : Headers × ClientResult :=
  (c.requestHeaders headers, handleWithCancel o)

def Client.putForm (c : Client) (headers : Headers) (o : AxiosOutcome) : Headers × ClientResult :=
  (c.requestHeaders headers, handleWithCancel o)

def Client.patch (c : Client) (headers : Headers) (o : AxiosOutcome) : Headers × ClientResult :=
  (c.requestHeaders headers, handleWithCancel o)

def Client.patchForm (c : Client) (headers : Headers) (o : AxiosOutcome) : Headers × ClientResult :=
  (c.requestHeaders headers, handleWithCancel o)

def Client.post (c : Client) (headers : Headers) (o : AxiosOutcome) : Headers × ClientResult :=
  (c.requestHeaders headers, handleNoCancel o)

def Client.postForm (c : Client) (headers : Headers) (o : AxiosOutcome) : Headers × ClientResult :=
  (c.requestHeaders headers, handleNoCancel o)

def Client.del (c : Client) (headers : Headers) (o : AxiosOutcome) : Headers × ClientResult :=
  (c.requestHeaders headers, handleWithCancel o)

/-! ## Cancellation state

The constructor creates an `AbortController` for the instance and then
executes `axios.defaults.signal = this.abortController.signal`: the
default signal is a single library-global slot.  The verb methods pass no
`signal` in their per-request options, so axios attaches the signal held
in the global default slot at the time the request is issued.  A request
is aborted in flight exactly when the controller of its attached signal
has been aborted.
-/

structure AxiosState where
  /-- Fresh id for the next `new AbortController()`. -/
  nextId : Nat
  /-- Ids of controllers on which `abort()` has been called. -/
  abortedIds : List Nat
  /-- `axios.defaults.signal`: the library-global default signal slot. -/
  defaultSignal : Option Nat
deriving DecidableEq, Repr

/-- `new Client(baseUrl, accessToken)`: stores the token and base URL,
creates a fresh `AbortController`, and overwrites the library-global
`axios.defaults.signal` with this instance's signal. -/
def Client.construct (baseUrl : String) (accessToken : Option String) (st : AxiosState) :
    Client × AxiosState :=
  ({ accessToken := accessToken, baseUrl := baseUrl, abortController := st.nextId },
   { nextId := st.nextId + 1, abortedIds := st.abortedIds, defaultSignal := some st.nextId })

/-- `cancel()`: `this.abortController.abort()`. -/
def Client.cancel (c : Client) (st : AxiosState) : AxiosState :=
  { st with abortedIds := c.abortController :: st.abortedIds }

/-- The signal axios attaches to a request issued while the state is `st`:
the verb options carry no `signal`, so the global default applies. -/
def requestSignal (st : AxiosState) : Option Nat :=
  st.defaultSignal

/-- Whether a request carrying `sig` is aborted once the state is `st`. -/
def signalAborted (st : AxiosState) (sig : Option Nat) : Bool :=
  match sig with
  | some i => st.abortedIds.contains i
  | none => false

/-! ## Notification type enumerations

Modelled from the spec: the canonical notification enumeration
(`src/megalodon/src/notification.ts`) and the Pixelfed one
(`src/megalodon/src/pixelfed/notification.ts`) are not among the shown
sources; the spec describes each as a closed set of tagged string
constants covering the five kinds follow, favourite, reblog, mention and
follow-request, mapped to/from one canonical set.
-/

/-! Modelled from the spec: the canonical notification-type string
constants (the megalodon `NotificationType` enumeration, whose defining
file is not among the shown sources). -/
namespace NotificationType

def Follow : String := "follow"

def Favourite : String := "favourite"

def Reblog : String := "reblog"

def Mention : String := "mention"

def FollowRequest : String := "follow_request"

end NotificationType

/-! Modelled from the spec: the Pixelfed backend notification-type string
constants (the `PixelfedNotificationType` enumeration, whose defining
file is not among the shown sources). -/
namespace PixelfedNotificationType

def Follow : String := "follow"

def Favourite : String := "favourite"

def Reblog : String := "reblog"

def Mention : String := "mention"

def FollowRequest : String := "follow_request"

end PixelfedNotificationType

/-- Result of an enumeration mapping: either a mapped type value or the
`UnknownNotificationTypeError` marker (a first-class value, not a raised
failure). -/
inductive NTResult where
  | ok (t : String)
  | unknownNotificationTypeError
deriving DecidableEq, Repr

/-! ## Backend entity schemas

Leaf entities whose defining files are not among the shown sources
(`Emoji`, `Field`, `Source`, `Attachment`, `Mention`, `Poll`,
`Application`, `Tag`) are modelled as opaque carriers: their internal
shape is irrelevant to every claim, and the converters treat them as
identities or map them elementwise.
-/

structure Emoji where
  shortcode : String
deriving DecidableEq, Repr

structure Field where
  name : String
  value : String
deriving DecidableEq, Repr

structure Source where
  note : String
deriving DecidableEq, Repr

structure Attachment where
  id : String
deriving DecidableEq, Repr

structure Mention where
  id : String
deriving DecidableEq, Repr

structure Poll where
  id : String
deriving DecidableEq, Repr

structure Application where
  name : String
deriving DecidableEq, Repr

structure StatusTag where
  name : String
  url : String
deriving DecidableEq, Repr

structure Tag where
  name : String
  url : String
deriving DecidableEq, Repr

/-- A runtime JSON value at a position whose schema documents an array:
either an actual array (`Array.isArray` is true) or some non-array value
(`null`, absent, a scalar, ...). -/
inductive ArrVal (α : Type) where
  | arr (xs : List α)
  | notArr
deriving DecidableEq, Repr

/-- The defensive-array idiom `Array.isArray(v) ? v.map(f) : []`. -/
def isArrayMap {α β : Type} (f : α → β) : ArrVal α → List β
  | .arr xs => xs.map f
  | .notArr => []

/-- Pixelfed backend `Account` (`src/megalodon/src/pixelfed/entities/account.ts`). -/
structure PixelfedAccount where
  id : String
  username : String
  acct : String
  display_name : String
  /-- `discoverable?: boolean` — optional in the wire schema. -/
  discoverable : Option Bool
  locked : Bool
  followers_count : Nat
  following_count : Nat
  statuses_count : Nat
  note : String
  url : String
  avatar : String
  created_at : String
  avatar_static : String
  bot : Bool
  emojis : List Emoji
  fields : List Field
  header : String
  header_static : String
  last_status_at : Option String
  /-- `source?: Source` — optional in the wire schema. -/
  source : Option Source
deriving DecidableEq, Repr

/-- Canonical megalodon `Account`: the shape the converter constructs,
with every backend-absent field present and nullable. -/
structure MegalodonAccount where
  id : String
  username : String
  acct : String
  display_name : String
  locked : Bool
  discoverable : Option Bool
  group : Option Bool
  noindex : Option Bool
  suspended : Option Bool
  limited : Option Bool
  created_at : String
  followers_count : Nat
  following_count : Nat
  statuses_count : Nat
  note : String
  url : String
  avatar : String
  avatar_static : String
  header : String
  header_static : String
  emojis : List Emoji
  /-- `moved: Account | null`; the payload is irrelevant here since the
  converter always writes `null`. -/
  moved : Option Unit
  fields : List Field
  bot : Option Bool
  source : Option Source
deriving DecidableEq, Repr

/-- Pixelfed backend `Status` (`src/megalodon/src/pixelfed/entities/status.ts`):
recursive through `reblog: Status | null`.  The fields the schema types as
arrays are carried as runtime `ArrVal`s so that the converters' handling of
non-array wire values can be stated. -/
inductive PixelfedStatus where
  | mk
    (id : String) (uri : String) (url : String)
    (account : PixelfedAccount)
    (in_reply_to_id : Option String)
    (in_reply_to_account_id : Option String)
    (reblog : Option PixelfedStatus)
    (content : String)
    (created_at : String)
    (edited_at : Option String)
    (emojis : ArrVal Emoji)
    (replies_count : Nat) (reblogs_count : Nat) (favourites_count : Nat)
    (reblogged : Option Bool) (favourited : Option Bool) (muted : Option Bool)
    (sensitive : Bool)
    (spoiler_text : String)
    (visibility : String)
    (media_attachments : ArrVal Attachment)
    (mentions : ArrVal Mention)
    (tags : ArrVal StatusTag)
    (poll : Option Poll)
    (application : Option Application)
    (language : Option String)
    (bookmarked : Option Bool)

def PixelfedStatus.account : PixelfedStatus → PixelfedAccount
  | .mk _ _ _ a _ _ _ _ _ _ _ _ _ _ _ _ _ _ _ _ _ _ _ _ _ _ _ => a

def PixelfedStatus.reblog : PixelfedStatus → Option PixelfedStatus
  | .mk _ _ _ _ _ _ r _ _ _ _ _ _ _ _ _ _ _ _ _ _ _ _ _ _ _ _ => r

def PixelfedStatus.emojis : PixelfedStatus → ArrVal Emoji
  | .mk _ _ _ _ _ _ _ _ _ _ e _ _ _ _ _ _ _ _ _ _ _ _ _ _ _ _ => e

def PixelfedStatus.media_attachments : PixelfedStatus → ArrVal Attachment
  | .mk _ _ _ _ _ _ _ _ _ _ _ _ _ _ _ _ _ _ _ _ m _ _ _ _ _ _ => m

def PixelfedStatus.mentions : PixelfedStatus → ArrVal Mention
  | .mk _ _ _ _ _ _ _ _ _ _ _ _ _ _ _ _ _ _ _ _ _ m _ _ _ _ _ => m

def PixelfedStatus.tags : PixelfedStatus → ArrVal StatusTag
  | .mk _ _ _ _ _ _ _ _ _ _ _ _ _ _ _ _ _ _ _ _ _ _ t _ _ _ _ => t

def PixelfedStatus.bookmarked : PixelfedStatus → Option Bool
  | .mk _ _ _ _ _ _ _ _ _ _ _ _ _ _ _ _ _ _ _ _ _ _ _ _ _ _ b => b

/-- `Card` payload placeholder: the status converter always writes `null`. -/
structure Card where
  url : String
deriving DecidableEq, Repr

/-- `Reaction` payload placeholder: the status converter always writes `[]`. -/
structure Reaction where
  name : String
deriving DecidableEq, Repr

/-- Canonical megalodon `Status`: the shape the converter constructs,
recursive through `reblog`. -/
inductive MegalodonStatus where
  | mk
    (id : String) (uri : String) (url : String)
    (account : MegalodonAccount)
    (in_reply_to_id : Option String)
    (in_reply_to_account_id : Option String)
    (reblog : Option MegalodonStatus)
    (content : String)
    (plain_content : Option String)
    (created_at : String)
    (edited_at : Option String)
    (emojis : List Emoji)
    (replies_count : Nat) (reblogs_count : Nat) (favourites_count : Nat)
    (reblogged : Option Bool) (favourited : Option Bool) (muted : Option Bool)
    (sensitive : Bool)
    (spoiler_text : String)
    (visibility : String)
    (media_attachments : List Attachment)
    (mentions : List Mention)
    (tags : ArrVal StatusTag)
    (card : Option Card)
    (poll : Option Poll)
    (application : Option Application)
    (language : Option String)
    (pinned : Bool)
    (emoji_reactions : List Reaction)
    (bookmarked : Bool)
    (quote : Bool)

def MegalodonStatus.account : MegalodonStatus → MegalodonAccount
  | .mk _ _ _ a _ _ _ _ _ _ _ _ _ _ _ _ _ _ _ _ _ _ _ _ _ _ _ _ _ _ _ _ => a

def MegalodonStatus.reblog : MegalodonStatus → Option MegalodonStatus
  | .mk _ _ _ _ _ _ r _ _ _ _ _ _ _ _ _ _ _ _ _ _ _ _ _ _ _ _ _ _ _ _ _ => r

def MegalodonStatus.plain_content : MegalodonStatus → Option String
  | .mk _ _ _ _ _ _ _ _ p _ _ _ _ _ _ _ _ _ _ _ _ _ _ _ _ _ _ _ _ _ _ _ => p

def MegalodonStatus.emojis : MegalodonStatus → List Emoji
  | .mk _ _ _ _ _ _ _ _ _ _ _ e _ _ _ _ _ _ _ _ _ _ _ _ _ _ _ _ _ _ _ _ => e

def MegalodonStatus.media_attachments : MegalodonStatus → List Attachment
  | .mk _ _ _ _ _ _ _ _ _ _ _ _ _ _ _ _ _ _ _ _ _ m _ _ _ _ _ _ _ _ _ _ => m

def MegalodonStatus.mentions : MegalodonStatus → List Mention
  | .mk _ _ _ _ _ _ _ _ _ _ _ _ _ _ _ _ _ _ _ _ _ _ m _ _ _ _ _ _ _ _ _ => m

def MegalodonStatus.tags : MegalodonStatus → ArrVal StatusTag
  | .mk _ _ _ _ _ _ _ _ _ _ _ _ _ _ _ _ _ _ _ _ _ _ _ t _ _ _ _ _ _ _ _ => t

def MegalodonStatus.card : MegalodonStatus → Option Card
  | .mk _ _ _ _ _ _ _ _ _ _ _ _ _ _ _ _ _ _ _ _ _ _ _ _ c _ _ _ _ _ _ _ => c

def MegalodonStatus.pinned : MegalodonStatus → Bool
  | .mk _ _ _ _ _ _ _ _ _ _ _ _ _ _ _ _ _ _ _ _ _ _ _ _ _ _ _ _ p _ _ _ => p

def MegalodonStatus.emoji_reactions : MegalodonStatus → List Reaction
  | .mk _ _ _ _ _ _ _ _ _ _ _ _ _ _ _ _ _ _ _ _ _ _ _ _ _ _ _ _ _ e _ _ => e

def MegalodonStatus.bookmarked : MegalodonStatus → Bool
  | .mk _ _ _ _ _ _ _ _ _ _ _ _ _ _ _ _ _ _ _ _ _ _ _ _ _ _ _ _ _ _ b _ => b

def MegalodonStatus.quote : MegalodonStatus → Bool
  | .mk _ _ _ _ _ _ _ _ _ _ _ _ _ _ _ _ _ _ _ _ _ _ _ _ _ _ _ _ _ _ _ q => q

/-- Pixelfed backend `Context`.  Its two fields are documented as arrays;
they are carried as runtime `ArrVal`s. -/
structure PixelfedContext where
  ancestors : ArrVal PixelfedStatus
  descendants : ArrVal PixelfedStatus

structure MegalodonContext where
  ancestors : List MegalodonStatus
  descendants : List MegalodonStatus

/-- Pixelfed backend `Results`. -/
structure PixelfedResults where
  accounts : ArrVal PixelfedAccount
  statuses : ArrVal PixelfedStatus
  hashtags : ArrVal Tag

structure MegalodonResults where
  accounts : List MegalodonAccount
  statuses : List MegalodonStatus
  hashtags : List Tag

/-- Pixelfed backend `Notification`: `status` is optional. -/
structure PixelfedNotification where
  account : PixelfedAccount
  created_at : String
  id : String
  status : Option PixelfedStatus
  type : String

/-- Canonical megalodon `Notification`; `status` is an optional field,
absent (`none`) when the backend notification carried none. -/
structure MegalodonNotification where
  account : MegalodonAccount
  created_at : String
  id : String
  status : Option MegalodonStatus
  type : String

/-- Result of converting a backend notification: a canonical notification
or the propagated `UnknownNotificationTypeError` marker. -/
inductive NotificationResult where
  | ok (n : MegalodonNotification)
  | unknownNotificationTypeError

/-! ## The Converter namespace of the Pixelfed adapter -/

namespace Converter

/-- `Converter.encodeNotificationType`: a switch over the canonical
notification-type constants, returning `UnknownNotificationTypeError`
in the default case. -/
def encodeNotificationType (t : String) : NTResult :=
  if t = NotificationType.Follow then .ok PixelfedNotificationType.Follow
  else if t = NotificationType.Favourite then .ok PixelfedNotificationType.Favourite
  else if t = NotificationType.Reblog then .ok PixelfedNotificationType.Reblog
  else if t = NotificationType.Mention then .ok PixelfedNotificationType.Mention
  else if t = NotificationType.FollowRequest then .ok PixelfedNotificationType.FollowRequest
  else .unknownNotificationTypeError

/-- `Converter.decodeNotificationType`: a switch over the Pixelfed
notification-type constants, returning `UnknownNotificationTypeError`
in the default case. -/
def decodeNotificationType (t : String) : NTResult :=
  if t = PixelfedNotificationType.Follow then .ok NotificationType.Follow
  else if t = PixelfedNotificationType.Favourite then .ok NotificationType.Favourite
  else if t = PixelfedNotificationType.Mention then .ok NotificationType.Mention
  else if t = PixelfedNotificationType.Reblog then .ok NotificationType.Reblog
  else if t = PixelfedNotificationType.FollowRequest then .ok NotificationType.FollowRequest
  else .unknownNotificationTypeError

/-- `Converter.account`. -/
def account (a : PixelfedAccount) : MegalodonAccount :=
  { id := a.id
    username := a.username
    acct := a.acct
    display_name := a.display_name
    locked := a.locked
    discoverable := a.discoverable
    group := none
    noindex := none
    suspended := none
    limited := none
    created_at := a.created_at
    followers_count := a.followers_count
    following_count := a.following_count
    statuses_count := a.statuses_count
    note := a.note
    url := a.url
    avatar := a.avatar
    avatar_static := a.avatar_static
    header := a.header
    header_static := a.header_static
    emojis := a.emojis
    moved := none
    fields := a.fields
    bot := none
    source := a.source }

/-- `Converter.emoji`: identity. -/
def emoji (e : Emoji) : Emoji := e

/-- `Converter.attachment`: identity. -/
def attachment (a : Attachment) : Attachment := a

/-- `Converter.mention`: identity. -/
def mention (m : Mention) : Mention := m

/-- `Converter.poll`: identity. -/
def poll (p : Poll) : Poll := p

/-- `Converter.application`: identity. -/
def application (a : Application) : Application := a

/-- `Converter.tag`: identity. -/
def tag (t : Tag) : Tag := t

/-- `Converter.status`: field-by-field construction of the canonical
status; `reblog` recurses through the same converter
(`s.reblog ? status(s.reblog) : null`), the documented-array fields
`emojis`, `media_attachments` and `mentions` use the defensive
`Array.isArray(v) ? v.map(f) : []` idiom, while `tags` is passed through
unchanged, and `bookmarked` is `s.bookmarked ? s.bookmarked : false`. -/
def status : PixelfedStatus → MegalodonStatus
  | .mk id uri url acct in_reply_to_id in_reply_to_account_id reblog content
      created_at edited_at emojis replies_count reblogs_count favourites_count
      reblogged favourited muted sensitive spoiler_text visibility
      media_attachments mentions tags poll0 application0 language bookmarked =>
    .mk id uri url (account acct) in_reply_to_id in_reply_to_account_id
      (match reblog with
       | some r => some (status r)
       | none => none)
      content
      none
      created_at edited_at
      (isArrayMap emoji emojis)
      replies_count reblogs_count favourites_count
      reblogged favourited muted sensitive spoiler_text visibility
      (isArrayMap attachment media_attachments)
      (isArrayMap mention mentions)
      tags
      none
      (match poll0 with
       | some p => some (poll p)
       | none => none)
      (match application0 with
       | some a => some (application a)
       | none => none)
      language
      false
      []
      (match bookmarked with
       | some b => if b then b else false
       | none => false)
      false

/-- `Converter.context`. -/
def context (c : PixelfedContext) : MegalodonContext :=
  { ancestors := isArrayMap status c.ancestors
    descendants := isArrayMap status c.descendants }

/-- `Converter.results`. -/
def results (r : PixelfedResults) : MegalodonResults :=
  { accounts := isArrayMap account r.accounts
    statuses := isArrayMap status r.statuses
    hashtags := isArrayMap tag r.hashtags }

/-- `Converter.notification`: decodes the type, propagates the unknown
marker, and otherwise branches on presence of `n.status`. -/
def notification (n : PixelfedNotification) : NotificationResult :=
  match decodeNotificationType n.type with
  | .unknownNotificationTypeError => .unknownNotificationTypeError
  | .ok notificationType =>
    match n.status with
    | some s =>
      .ok { account := account n.account
            created_at := n.created_at
            id := n.id
            status := some (status s)
            type := notificationType }
    | none =>
      .ok { account := account n.account
            created_at := n.created_at
            id := n.id
            status := none
            type := notificationType }

end Converter

/-! ## Reblog nesting depth -/

/-- Length of the backend `reblog` chain. -/
def pixelfedReblogDepth : PixelfedStatus → Nat
  | .mk _ _ _ _ _ _ reblog _ _ _ _ _ _ _ _ _ _ _ _ _ _ _ _ _ _ _ _ =>
    match reblog with
    | some r => pixelfedReblogDepth r + 1
    | none => 0

/-- Length of the canonical `reblog` chain. -/
def megalodonReblogDepth : MegalodonStatus → Nat
  | .mk _ _ _ _ _ _ reblog _ _ _ _ _ _ _ _ _ _ _ _ _ _ _ _ _ _ _ _ _ _ _ _ _ =>
    match reblog with
    | some r => megalodonReblogDepth r + 1
    | none => 0

/-- The signal attached to a request issued through a client's verb method
while the axios state is `st`: the per-request options set no `signal`, so
the issuing instance is irrelevant and the library-global default applies. -/
def Client.issuedRequestSignal (_c : Client) (st : AxiosState) : Option Nat :=
  requestSignal st

/-! ## Sample values used by witnesses -/

def sampleAccount : PixelfedAccount :=
  { id := "1", username := "u", acct := "u", display_name := "U", discoverable := none,
    locked := false, followers_count := 0, following_count := 0, statuses_count := 0,
    note := "", url := "https://pixelfed.social/u", avatar := "",
    created_at := "2023-01-01T00:00:00.000Z", avatar_static := "", bot := false,
    emojis := [], fields := [], header := "", header_static := "",
    last_status_at := none, source := none }

def mkSampleStatus (reblog : Option PixelfedStatus) (emojis : ArrVal Emoji)
    (media_attachments : ArrVal Attachment) (mentions : ArrVal Mention)
    (tags : ArrVal StatusTag) (bookmarked : Option Bool) : PixelfedStatus :=
  .mk "1" "uri" "url" sampleAccount none none reblog "content"
    "2023-01-01T00:00:00.000Z" none emojis 0 0 0 none none none false "" "public"
    media_attachments mentions tags none none none bookmarked

def sampleStatusNotArr : PixelfedStatus :=
  mkSampleStatus none .notArr .notArr .notArr .notArr none

def sampleInnerStatus : PixelfedStatus :=
  mkSampleStatus none (.arr [⟨"blob"⟩]) (.arr [⟨"att1"⟩]) (.arr [⟨"men1"⟩])
    (.arr [⟨"tagname", "tagurl"⟩]) (some true)

def sampleNestedStatus : PixelfedStatus :=
  mkSampleStatus (some sampleInnerStatus) (.arr []) (.arr []) (.arr []) (.arr []) none

def sampleNotificationNoStatus : PixelfedNotification :=
  { account := sampleAccount, created_at := "2023-01-02T00:00:00.000Z", id := "n1",
    status := none, type := PixelfedNotificationType.Follow }

def sampleNotificationWithStatus : PixelfedNotification :=
  { account := sampleAccount, created_at := "2023-01-02T00:00:00.000Z", id := "n2",
    status := some sampleInnerStatus, type := PixelfedNotificationType.Favourite }

def sampleNotificationUnknown : PixelfedNotification :=
  { account := sampleAccount, created_at := "2023-01-03T00:00:00.000Z", id := "n3",
    status := none, type := "pleroma:chat_mention" }

/-! ## Cancellation leak scenario: two clients constructed in sequence -/

def constructedB : Client × AxiosState := Client.construct "https://b.example" none ⟨0, [], none⟩

def clientB : Client := constructedB.1

def constructedA : Client × AxiosState := Client.construct "https://a.example" none constructedB.2

def clientA : Client := constructedA.1

def stAfterBoth : AxiosState := constructedA.2

/-! ## Header-merge lemmas -/

theorem lookupHeader_setHeader_self (hs : Headers) (k v : String) :
    lookupHeader (setHeader hs k v) k = some v := by
  induction hs with
  | nil => simp [setHeader, lookupHeader]
  | cons p t ih =>
    by_cases h : p.1 = k
    · simp [setHeader, h, lookupHeader]
    · simp [setHeader, h, lookupHeader, ih]

theorem lookupHeader_setHeader_ne (hs : Headers) (k v k' : String) (h : k' ≠ k) :
    lookupHeader (setHeader hs k v) k' = lookupHeader hs k' := by
  induction hs with
  | nil =>
    simp only [setHeader, lookupHeader]
    rw [if_neg (fun hh => h hh.symm)]
  | cons p t ih =>
    by_cases hp : p.1 = k
    · simp only [setHeader, if_pos hp, lookupHeader]
      rw [if_neg (fun hh => h hh.symm), if_neg (by rw [hp]; exact fun hh => h hh.symm)]
    · simp only [setHeader, if_neg hp, lookupHeader]
      rw [ih]

/-! ## Reblog depth preservation -/

theorem status_reblogDepth (s : PixelfedStatus) :
    megalodonReblogDepth (Converter.status s) = pixelfedReblogDepth s := by
  suffices h : ∀ n s, pixelfedReblogDepth s ≤ n →
      megalodonReblogDepth (Converter.status s) = pixelfedReblogDepth s from
    h (pixelfedReblogDepth s) s le_rfl
  intro n
  induction n with
  | zero =>
    intro s hs
    obtain ⟨i1, i2, i3, a4, i5, i6, rb, c8, c9, e10, e11, n12, n13, n14, o15, o16, o17,
      b18, s19, v20, m21, m22, t23, p24, a25, l26, b27⟩ := s
    cases rb with
    | none => rfl
    | some r =>
      exact absurd hs (by simp [pixelfedReblogDepth])
  | succ n ih =>
    intro s hs
    obtain ⟨i1, i2, i3, a4, i5, i6, rb, c8, c9, e10, e11, n12, n13, n14, o15, o16, o17,
      b18, s19, v20, m21, m22, t23, p24, a25, l26, b27⟩ := s
    cases rb with
    | none => rfl
    | some r =>
      have hr : pixelfedReblogDepth r ≤ n := by
        have hdepth : pixelfedReblogDepth (PixelfedStatus.mk i1 i2 i3 a4 i5 i6 (some r)
            c8 c9 e10 e11 n12 n13 n14 o15 o16 o17 b18 s19 v20 m21 m22 t23 p24 a25 l26 b27)
            = pixelfedReblogDepth r + 1 := rfl
        rw [hdepth] at hs
        omega
      show megalodonReblogDepth (Converter.status r) + 1 = pixelfedReblogDepth r + 1
      rw [ih r hr]

/-! ## Claims -/

/-- C1 counterexample: `post` has no `.catch` translation, so an
abort-triggered failure on `post` resolves with the transport's generic
abort failure, not with `RequestCanceledError` — refuting the claim that
every verb method translates it. -/
theorem c1_counterexample :
    ((Client.mk none "https://pixelfed.social" 0).post [] (.canceled "canceled")).2
        = .axiosCanceled "canceled"
    ∧ ((Client.mk none "https://pixelfed.social" 0).post [] (.canceled "canceled")).2
        ≠ .requestCanceledError "canceled" := by
  exact ⟨rfl, by decide⟩

/-- C1 (amended): for the six cancel-aware verbs `get`, `put`, `putForm`,
`patch`, `patchForm` and `del`, an abort-triggered failure resolves with
the distinguished `RequestCanceledError` cancellation failure, never with
the transport's generic abort failure; `post` and `postForm` instead
propagate the transport's generic abort failure untranslated. -/
theorem c1_cancel_translation_per_verb (c : Client) (hs : Headers) (msg : String) :
    (c.get hs (.canceled msg)).2 = .requestCanceledError msg
    ∧ (c.put hs (.canceled msg)).2 = .requestCanceledError msg
    ∧ (c.putForm hs (.canceled msg)).2 = .requestCanceledError msg
    ∧ (c.patch hs (.canceled msg)).2 = .requestCanceledError msg
    ∧ (c.patchForm hs (.canceled msg)).2 = .requestCanceledError msg
    ∧ (c.del hs (.canceled msg)).2 = .requestCanceledError msg
    ∧ (c.post hs (.canceled msg)).2 = .axiosCanceled msg
    ∧ (c.postForm hs (.canceled msg)).2 = .axiosCanceled msg :=
  ⟨rfl, rfl, rfl, rfl, rfl, rfl, rfl, rfl⟩

/-- C2 (code bug): construct client `B`, then client `A`; each constructor
overwrites the library-global `axios.defaults.signal`, so a request issued
through `B` after `A` exists carries `A`'s signal, and `A.cancel()` aborts
`B`'s in-flight request even though the two instances and their
controllers are distinct — contradicting the claim that cancellation is
instance-scoped. -/
theorem c2_global_signal_cross_instance_abort :
    clientA.abortController ≠ clientB.abortController
    ∧ signalAborted (clientA.cancel stAfterBoth)
        (clientB.issuedRequestSignal stAfterBoth) = true := by
  decide

/-- C3 counterexample: a client constructed with the non-null access token
`""` issues requests with the caller headers passed through unchanged and
no `Authorization` header, because `if (this.accessToken)` is JS
truthiness and the empty string is falsy. -/
theorem c3_counterexample :
    (Client.mk (some "") "https://pixelfed.social" 0).requestHeaders [("X-Custom", "1")]
        = [("X-Custom", "1")]
    ∧ lookupHeader ((Client.mk (some "") "https://pixelfed.social" 0).requestHeaders
        [("X-Custom", "1")]) "Authorization" = none := by
  decide

/-- C3 (amended): when the client was constructed with a non-null,
non-empty access token, the issued request carries an
`Authorization: Bearer (token)` header deep-merged with the
caller-supplied headers, no caller-supplied header key is deleted by the
merge, and every caller header other than `Authorization` keeps its value;
with a null token — or an empty-string token, which JS truthiness treats
the same way — the caller-supplied headers are passed through unchanged. -/
theorem c3_authorization_header_merge (token : String) (htok : token ≠ "") (hs : Headers)
    (c : Client) (hc : c.accessToken = some token) :
    lookupHeader (c.requestHeaders hs) "Authorization" = some ("Bearer " ++ token)
    ∧ (∀ k v, lookupHeader hs k = some v → ∃ v', lookupHeader (c.requestHeaders hs) k = some v')
    ∧ (∀ k, k ≠ "Authorization" → lookupHeader (c.requestHeaders hs) k = lookupHeader hs k)
    ∧ (∀ c' : Client, c'.accessToken = none → c'.requestHeaders hs = hs)
    ∧ (∀ c' : Client, c'.accessToken = some "" → c'.requestHeaders hs = hs) := by
  have hmerge : c.requestHeaders hs = setHeader hs "Authorization" ("Bearer " ++ token) := by
    simp [Client.requestHeaders, hc, htok]
  refine ⟨?_, ?_, ?_, ?_, ?_⟩
  · rw [hmerge]
    exact lookupHeader_setHeader_self hs "Authorization" ("Bearer " ++ token)
  · intro k v hk
    by_cases hka : k = "Authorization"
    · subst hka
      rw [hmerge]
      exact ⟨_, lookupHeader_setHeader_self hs "Authorization" ("Bearer " ++ token)⟩
    · rw [hmerge, lookupHeader_setHeader_ne hs "Authorization" ("Bearer " ++ token) k hka]
      exact ⟨v, hk⟩
  · intro k hka
    rw [hmerge, lookupHeader_setHeader_ne hs "Authorization" ("Bearer " ++ token) k hka]
  · intro c' hc'
    simp [Client.requestHeaders, hc']
  · intro c' hc'
    simp [Client.requestHeaders, hc']

/-- C3 witness: with token `"TOKEN"` and a caller header `X-Custom: 1`,
the merged headers carry the bearer Authorization header and keep the
caller header. -/
theorem c3_authorization_header_merge_witness :
    lookupHeader ((Client.mk (some "TOKEN") "https://pixelfed.social" 0).requestHeaders
        [("X-Custom", "1")]) "Authorization" = some ("Bearer " ++ "TOKEN")
    ∧ lookupHeader ((Client.mk (some "TOKEN") "https://pixelfed.social" 0).requestHeaders
        [("X-Custom", "1")]) "X-Custom" = some "1" := by
  have h := c3_authorization_header_merge "TOKEN" (by decide) [("X-Custom", "1")]
      (Client.mk (some "TOKEN") "https://pixelfed.social" 0) rfl
  refine ⟨h.1, ?_⟩
  rw [h.2.2.1 "X-Custom" (by decide)]
  rfl

/-- C4: for each of the five declared notification kinds, encoding then
decoding (and decoding then encoding) round-trips, and any input value
outside the known set is mapped by both `encodeNotificationType` and
`decodeNotificationType` to the `UnknownNotificationTypeError` marker
value rather than raising. -/
theorem c4_notification_type_roundtrip :
    (Converter.encodeNotificationType NotificationType.Follow
        = .ok PixelfedNotificationType.Follow
      ∧ Converter.decodeNotificationType PixelfedNotificationType.Follow
        = .ok NotificationType.Follow)
    ∧ (Converter.encodeNotificationType NotificationType.Favourite
        = .ok PixelfedNotificationType.Favourite
      ∧ Converter.decodeNotificationType PixelfedNotificationType.Favourite
        = .ok NotificationType.Favourite)
    ∧ (Converter.encodeNotificationType NotificationType.Reblog
        = .ok PixelfedNotificationType.Reblog
      ∧ Converter.decodeNotificationType PixelfedNotificationType.Reblog
        = .ok NotificationType.Reblog)
    ∧ (Converter.encodeNotificationType NotificationType.Mention
        = .ok PixelfedNotificationType.Mention
      ∧ Converter.decodeNotificationType PixelfedNotificationType.Mention
        = .ok NotificationType.Mention)
    ∧ (Converter.encodeNotificationType NotificationType.FollowRequest
        = .ok PixelfedNotificationType.FollowRequest
      ∧ Converter.decodeNotificationType PixelfedNotificationType.FollowRequest
        = .ok NotificationType.FollowRequest)
    ∧ (∀ t : String,
        t ∉ [NotificationType.Follow, NotificationType.Favourite, NotificationType.Reblog,
          NotificationType.Mention, NotificationType.FollowRequest] →
        Converter.encodeNotificationType t = .unknownNotificationTypeError)
    ∧ (∀ t : String,
        t ∉ [PixelfedNotificationType.Follow, PixelfedNotificationType.Favourite,
          PixelfedNotificationType.Reblog, PixelfedNotificationType.Mention,
          PixelfedNotificationType.FollowRequest] →
        Converter.decodeNotificationType t = .unknownNotificationTypeError) := by
  refine ⟨⟨by decide, by decide⟩, ⟨by decide, by decide⟩, ⟨by decide, by decide⟩,
    ⟨by decide, by decide⟩, ⟨by decide, by decide⟩, ?_, ?_⟩
  · intro t ht
    have h1 : ¬(t = NotificationType.Follow) := fun h => ht (by simp [h])
    have h2 : ¬(t = NotificationType.Favourite) := fun h => ht (by simp [h])
    have h3 : ¬(t = NotificationType.Reblog) := fun h => ht (by simp [h])
    have h4 : ¬(t = NotificationType.Mention) := fun h => ht (by simp [h])
    have h5 : ¬(t = NotificationType.FollowRequest) := fun h => ht (by simp [h])
    simp [Converter.encodeNotificationType, h1, h2, h3, h4, h5]
  · intro t ht
    have h1 : ¬(t = PixelfedNotificationType.Follow) := fun h => ht (by simp [h])
    have h2 : ¬(t = PixelfedNotificationType.Favourite) := fun h => ht (by simp [h])
    have h3 : ¬(t = PixelfedNotificationType.Reblog) := fun h => ht (by simp [h])
    have h4 : ¬(t = PixelfedNotificationType.Mention) := fun h => ht (by simp [h])
    have h5 : ¬(t = PixelfedNotificationType.FollowRequest) := fun h => ht (by simp [h])
    simp [Converter.decodeNotificationType, h1, h2, h3, h4, h5]

/-- C4 witness: the deliberately unknown literal is mapped to the unknown
marker by both directions. -/
theorem c4_notification_type_roundtrip_witness :
    Converter.encodeNotificationType "pleroma:emoji_reaction" = .unknownNotificationTypeError
    ∧ Converter.decodeNotificationType "pleroma:emoji_reaction"
      = .unknownNotificationTypeError :=
  ⟨c4_notification_type_roundtrip.2.2.2.2.2.1 "pleroma:emoji_reaction" (by decide),
   c4_notification_type_roundtrip.2.2.2.2.2.2 "pleroma:emoji_reaction" (by decide)⟩

/-- C5: every converted account has `group`, `noindex`, `suspended`,
`limited`, `moved` and `bot` explicitly set to `null`, and `discoverable`
passed through — including when the backend omitted it (`none`), so the
canonical shape is stable. -/
theorem c5_account_neutral_fields (a : PixelfedAccount) :
    (Converter.account a).group = none
    ∧ (Converter.account a).noindex = none
    ∧ (Converter.account a).suspended = none
    ∧ (Converter.account a).limited = none
    ∧ (Converter.account a).moved = none
    ∧ (Converter.account a).bot = none
    ∧ (Converter.account a).discoverable = a.discoverable :=
  ⟨rfl, rfl, rfl, rfl, rfl, rfl, rfl⟩

/-- C6 counterexample: a backend status whose `tags` is a non-array value
converts to a canonical status whose `tags` is that same non-array value,
not the empty sequence — refuting the claim for `Status.tags`, which the
converter passes through without an `Array.isArray` check. -/
theorem c6_counterexample :
    (Converter.status (mkSampleStatus none (.arr []) (.arr []) (.arr [])
        .notArr none)).tags = ArrVal.notArr
    ∧ (Converter.status (mkSampleStatus none (.arr []) (.arr []) (.arr [])
        .notArr none)).tags ≠ ArrVal.arr [] :=
  ⟨rfl, by decide⟩

/-- C6 (amended): for `Context.ancestors`/`descendants`,
`Results.accounts`/`statuses`/`hashtags` and `Status.emojis`/
`media_attachments`/`mentions`, a non-array backend value yields an empty
canonical sequence and the conversion never raises; `Status.tags`,
however, is passed through unchanged, so a non-array `tags` value is
propagated as-is rather than replaced by an empty sequence. -/
theorem c6_array_defensiveness (c : PixelfedContext) (r : PixelfedResults) (s : PixelfedStatus) :
    (c.ancestors = .notArr → (Converter.context c).ancestors = [])
    ∧ (c.descendants = .notArr → (Converter.context c).descendants = [])
    ∧ (r.accounts = .notArr → (Converter.results r).accounts = [])
    ∧ (r.statuses = .notArr → (Converter.results r).statuses = [])
    ∧ (r.hashtags = .notArr → (Converter.results r).hashtags = [])
    ∧ (s.emojis = .notArr → (Converter.status s).emojis = [])
    ∧ (s.media_attachments = .notArr → (Converter.status s).media_attachments = [])
    ∧ (s.mentions = .notArr → (Converter.status s).mentions = [])
    ∧ (Converter.status s).tags = s.tags := by
  obtain ⟨ca, cd⟩ := c
  obtain ⟨ra, rs, rh⟩ := r
  obtain ⟨i1, i2, i3, a4, i5, i6, rb, c8, c9, e10, e11, n12, n13, n14, o15, o16, o17,
    b18, s19, v20, m21, m22, t23, p24, a25, l26, b27⟩ := s
  refine ⟨fun h => by subst h; rfl, fun h => by subst h; rfl, fun h => by subst h; rfl,
    fun h => by subst h; rfl, fun h => by subst h; rfl, ?_, ?_, ?_, ?_⟩
  · intro h
    subst h
    rw [Converter.status.eq_def]
    try rfl
  · intro h
    subst h
    rw [Converter.status.eq_def]
    try rfl
  · intro h
    subst h
    rw [Converter.status.eq_def]
    try rfl
  · rw [Converter.status.eq_def]
    try rfl

/-- C6 witness: concrete non-array inputs for every defensively-handled
field yield empty sequences, and a non-array `tags` is passed through. -/
theorem c6_array_defensiveness_witness :
    (Converter.context ⟨.notArr, .notArr⟩).ancestors = []
    ∧ (Converter.context ⟨.notArr, .notArr⟩).descendants = []
    ∧ (Converter.results ⟨.notArr, .notArr, .notArr⟩).accounts = []
    ∧ (Converter.results ⟨.notArr, .notArr, .notArr⟩).statuses = []
    ∧ (Converter.results ⟨.notArr, .notArr, .notArr⟩).hashtags = []
    ∧ (Converter.status sampleStatusNotArr).emojis = []
    ∧ (Converter.status sampleStatusNotArr).media_attachments = []
    ∧ (Converter.status sampleStatusNotArr).mentions = []
    ∧ (Converter.status sampleStatusNotArr).tags = ArrVal.notArr := by
  have h := c6_array_defensiveness ⟨.notArr, .notArr⟩ ⟨.notArr, .notArr, .notArr⟩
      sampleStatusNotArr
  exact ⟨h.1 rfl, h.2.1 rfl, h.2.2.1 rfl, h.2.2.2.1 rfl, h.2.2.2.2.1 rfl,
    h.2.2.2.2.2.1 rfl, h.2.2.2.2.2.2.1 rfl, h.2.2.2.2.2.2.2.1 rfl,
    h.2.2.2.2.2.2.2.2⟩

/-- C7: a `null` backend `reblog` converts to canonical `reblog: null`; a
nested backend `reblog` converts by recursively applying the same status
converter (so the nested account, media attachments and mentions are
themselves converted); and the conversion preserves the reblog nesting
depth, so there is no recursion limit beyond the input's own nesting. -/
theorem c7_reblog_recursion (s : PixelfedStatus) :
    (s.reblog = none → (Converter.status s).reblog = none)
    ∧ (∀ r, s.reblog = some r → (Converter.status s).reblog = some (Converter.status r))
    ∧ (Converter.status s).account = Converter.account s.account
    ∧ (Converter.status s).media_attachments
      = isArrayMap Converter.attachment s.media_attachments
    ∧ (Converter.status s).mentions = isArrayMap Converter.mention s.mentions
    ∧ megalodonReblogDepth (Converter.status s) = pixelfedReblogDepth s := by
  have hdepth := status_reblogDepth s
  obtain ⟨i1, i2, i3, a4, i5, i6, rb, c8, c9, e10, e11, n12, n13, n14, o15, o16, o17,
    b18, s19, v20, m21, m22, t23, p24, a25, l26, b27⟩ := s
  refine ⟨?_, ?_, ?_, ?_, ?_, hdepth⟩
  · intro h
    subst h
    rw [Converter.status.eq_def]
    try rfl
  · intro r h
    subst h
    rw [Converter.status.eq_def]
    try rfl
  · rw [Converter.status.eq_def]
    try rfl
  · rw [Converter.status.eq_def]
    try rfl
  · rw [Converter.status.eq_def]
    try rfl

/-- C7 witness: a concrete status with a nested reblog converts to the
recursively converted status, and a concrete status with `reblog = null`
converts to `reblog = null`. -/
theorem c7_reblog_recursion_witness :
    (Converter.status sampleNestedStatus).reblog = some (Converter.status sampleInnerStatus)
    ∧ (Converter.status sampleInnerStatus).reblog = none :=
  ⟨(c7_reblog_recursion sampleNestedStatus).2.1 sampleInnerStatus rfl,
   (c7_reblog_recursion sampleInnerStatus).1 rfl⟩

/-- C8: when the backend notification's type decodes successfully, the
converter branches on presence of `status`: with no status the canonical
notification has `status` absent (`none`), not a converted empty status;
with a status present it additionally carries the converted status; both
branches carry the same converted account, `created_at`, `id` and decoded
type. -/
theorem c8_notification_status_branch (n : PixelfedNotification) (t : String)
    (h : Converter.decodeNotificationType n.type = .ok t) :
    (n.status = none → Converter.notification n =
      .ok { account := Converter.account n.account, created_at := n.created_at,
            id := n.id, status := none, type := t })
    ∧ (∀ s, n.status = some s → Converter.notification n =
      .ok { account := Converter.account n.account, created_at := n.created_at,
            id := n.id, status := some (Converter.status s), type := t }) := by
  constructor
  · intro hs
    unfold Converter.notification
    rw [h, hs]
  · intro s hs
    unfold Converter.notification
    rw [h, hs]

/-- C8 witness: a concrete notification without a status converts to a
canonical notification with `status` absent, and one with a status
converts to a canonical notification carrying the converted status. -/
theorem c8_notification_status_branch_witness :
    Converter.notification sampleNotificationNoStatus =
      .ok { account := Converter.account sampleAccount,
            created_at := "2023-01-02T00:00:00.000Z", id := "n1", status := none,
            type := NotificationType.Follow }
    ∧ Converter.notification sampleNotificationWithStatus =
      .ok { account := Converter.account sampleAccount,
            created_at := "2023-01-02T00:00:00.000Z", id := "n2",
            status := some (Converter.status sampleInnerStatus),
            type := NotificationType.Favourite } :=
  ⟨(c8_notification_status_branch sampleNotificationNoStatus NotificationType.Follow
      (by decide)).1 rfl,
   (c8_notification_status_branch sampleNotificationWithStatus NotificationType.Favourite
      (by decide)).2 sampleInnerStatus rfl⟩

/-- C9: a backend notification whose type is outside the known set makes
the notification converter return the `UnknownNotificationTypeError`
marker produced by `decodeNotificationType` unchanged, instead of a
converted notification. -/
theorem c9_unknown_type_propagation (n : PixelfedNotification)
    (h : Converter.decodeNotificationType n.type = .unknownNotificationTypeError) :
    Converter.notification n = .unknownNotificationTypeError := by
  unfold Converter.notification
  rw [h]

/-- C9 witness: a concrete notification with the unknown type literal
converts to the unknown marker. -/
theorem c9_unknown_type_propagation_witness :
    Converter.notification sampleNotificationUnknown = .unknownNotificationTypeError :=
  c9_unknown_type_propagation sampleNotificationUnknown (by decide)

/-- C10: every converted status has the constants `plain_content = null`,
`card = null`, `pinned = false`, `emoji_reactions = []` and
`quote = false`, and `bookmarked` is the backend value when truthy and
`false` otherwise — an absent backend `bookmarked` yields `false`. -/
theorem c10_status_constant_fields (s : PixelfedStatus) :
    (Converter.status s).plain_content = none
    ∧ (Converter.status s).card = none
    ∧ (Converter.status s).pinned = false
    ∧ (Converter.status s).emoji_reactions = []
    ∧ (Converter.status s).quote = false
    ∧ (Converter.status s).bookmarked = s.bookmarked.getD false := by
  obtain ⟨i1, i2, i3, a4, i5, i6, rb, c8, c9, e10, e11, n12, n13, n14, o15, o16, o17,
    b18, s19, v20, m21, m22, t23, p24, a25, l26, b27⟩ := s
  refine ⟨?_, ?_, ?_, ?_, ?_, ?_⟩
  · rw [Converter.status.eq_def]
    try rfl
  · rw [Converter.status.eq_def]
    try rfl
  · rw [Converter.status.eq_def]
    try rfl
  · rw [Converter.status.eq_def]
    try rfl
  · rw [Converter.status.eq_def]
    try rfl
  · cases b27 with
    | none =>
      rw [Converter.status.eq_def]
      try rfl
    | some b =>
      cases b
      · rw [Converter.status.eq_def]
        try rfl
      · rw [Converter.status.eq_def]
        try rfl

end MegalodonPixelfed
